import Mathlib

/-!
Verification development for the Dev-Janitor AI-tool security scanner.

The definitions below are a shallow embedding of
`src-tauri/src/security_scan/definitions.rs` and
`src-tauri/src/security_scan/scanner.rs`.  Effectful inputs of the scanner
(the port snapshot, the TCP probe, the filesystem, environment variables and
the clock) are made explicit as a `ScanEnv` record; everything else follows
the Rust source line by line.

String operations are modelled over the character list of a `String`, with
executable structural recursion, so that concrete scans evaluate inside the
kernel:
- `strContains s pat` models Rust `str::contains` (substring test);
- `lowerStr` models `str::to_lowercase` (per-character lowercasing; the
  strings the scanner compares are ASCII);
- `splitChar` models `str::split('|')`.
Rust `Vec::sort_by` is a stable sort; it is modelled by the stable
`List.insertionSort`, which produces the same list as any stable sort for
the same key.
-/

namespace DevJanitor

/-- Boolean test that `pat` occurs as a prefix of `l` (helper for `strContains`). -/
def isPrefixB : List Char → List Char → Bool
  | [], _ => true
  | _ :: _, [] => false
  | a :: as, b :: bs => a == b && isPrefixB as bs

/-- Boolean test that `pat` occurs as a contiguous run inside `l` (helper for `strContains`). -/
def isInsideB (pat : List Char) : List Char → Bool
  | [] => isPrefixB pat []
  | c :: rest => isPrefixB pat (c :: rest) || isInsideB pat rest

/-- Model of Rust `str::contains`: `pat` occurs as a substring of `s`. -/
def strContains (s pat : String) : Bool :=
  isInsideB pat.data s.data

/-- Model of Rust `str::to_lowercase` (per-character; scanner strings are ASCII). -/
def lowerStr (s : String) : String :=
  String.mk (s.data.map Char.toLower)

/-- Model of Rust `str::split(sep)` over the character list of a string. -/
def splitChar (sep : Char) : List Char → List (List Char)
  | [] => [[]]
  | c :: rest =>
    if c == sep then [] :: splitChar sep rest
    else
      match splitChar sep rest with
      | [] => [[c]]
      | g :: gs => (c :: g) :: gs

/-- Model of Rust `pattern.split(sep).collect::<Vec<_>>()` on a `String`. -/
def splitStr (sep : Char) (s : String) : List String :=
  (splitChar sep s.data).map String.mk

/-- Risk level classification (`definitions.rs`, enum `RiskLevel`). -/
inductive RiskLevel
  | Critical
  | High
  | Medium
  | Low
deriving DecidableEq, Repr

/-- Type of configuration check (`definitions.rs`, enum `ConfigCheckType`). -/
inductive ConfigCheckType
  | FileExists (path_pattern : String)
  | FileContains (path_pattern : String) (pattern : String)
  | FileMissing (path_pattern : String) (pattern : String)
  | EnvVar (name : String) (insecure_value : Option String)
deriving DecidableEq, Repr

/-- Port exposure rule (`definitions.rs`, struct `PortRule`). -/
structure PortRule where
  port : Nat
  name : String
  description : String
  risk_if_exposed : RiskLevel
  safe_bindings : List String
deriving DecidableEq, Repr

/-- Configuration vulnerability rule (`definitions.rs`, struct `ConfigRule`). -/
structure ConfigRule where
  name : String
  description : String
  check : ConfigCheckType
  risk_level : RiskLevel
  remediation : String
deriving DecidableEq, Repr

/-- Security rule definition for an AI tool (`definitions.rs`, struct `AiToolSecurityRule`). -/
structure AiToolSecurityRule where
  id : String
  name : String
  description : String
  docs_url : String
  process_names : List String
  ports : List PortRule
  configs : List ConfigRule
  config_paths : List String
deriving DecidableEq, Repr

/-- A security finding from the scan (`definitions.rs`, struct `SecurityFinding`). -/
structure SecurityFinding where
  tool_id : String
  tool_name : String
  issue : String
  description : String
  risk_level : RiskLevel
  remediation : String
  details : String
deriving DecidableEq, Repr

/-- Summary counters of a scan (`definitions.rs`, struct `SecuritySummary`). -/
structure SecuritySummary where
  total_findings : Nat
  critical : Nat
  high : Nat
  medium : Nat
  low : Nat
deriving DecidableEq, Repr

/-- Result of a security scan (`definitions.rs`, struct `SecurityScanResult`). -/
structure SecurityScanResult where
  scan_time : String
  tools_scanned : List String
  findings : List SecurityFinding
  summary : SecuritySummary
deriving DecidableEq, Repr

/-- Modelled from the spec: the collaborator-owned `PortInfo` record of the
`services` module (declared in `lib.rs` but absent from the sources): port
number, owning process name, process id, and a state string, consumed
read-only by the scanner. -/
structure PortInfo where
  port : Nat
  process_name : String
  pid : Nat
  state : String
deriving DecidableEq, Repr

/-- Explicit environment for the effectful inputs of the scanner: the home
directory environment variable (`env::var` in `get_home_dir`), filesystem
queries (`exists`, `is_dir`, `read_dir`, `read_to_string`), other
environment variables, the TCP probe outcome (`TcpStream::connect_timeout`
success for `127.0.0.1:port`), the port snapshot from `get_ports_in_use`,
and the formatted clock reading `Local::now`. -/
structure ScanEnv where
  home : Option String
  pathExists : String → Bool
  isDir : String → Bool
  readDir : String → Option (List String)
  readFile : String → Option String
  getEnvVar : String → Option String
  probe : Nat → Bool
  portsInUse : List PortInfo
  now : String

/-- Model of `check_port_binding` (`scanner.rs`): the address string always
parses for a `u16` port, so the result is `some "Listening on localhost"`
exactly when the TCP connection succeeds. -/
def check_port_binding (probe : Nat → Bool) (port : Nat) : Option String :=
  if probe port then some "Listening on localhost" else none

/-- Model of `get_home_dir` (`scanner.rs`): the single OS-appropriate
environment variable read, already resolved inside the environment. -/
def get_home_dir (env : ScanEnv) : Option String :=
  env.home

/-- Model of `PathBuf::join` of the home directory with a relative config path. -/
def joinPath (home path : String) : String :=
  home ++ "/" ++ path

/-- The safety test of the snapshot path of `check_exposed_ports`
(`scanner.rs` lines 59-63).  The closure binder over `safe_bindings` is
unused in the source: the tested condition is the fixed loopback heuristic. -/
def is_safe (port_rule : PortRule) (p : PortInfo) : Bool :=
  port_rule.safe_bindings.any fun _ =>
    strContains (lowerStr p.process_name) "localhost" || strContains p.state "127.0.0.1"

/-- The finding pushed by the snapshot path of `check_exposed_ports`
(`scanner.rs` lines 66-80). -/
def portExposedFinding (tool : AiToolSecurityRule) (port_rule : PortRule) (p : PortInfo) :
    SecurityFinding :=
  { tool_id := tool.id
    tool_name := tool.name
    issue := "Port " ++ toString port_rule.port ++ " (" ++ port_rule.name ++ ") is exposed"
    description := port_rule.description
    risk_level := port_rule.risk_if_exposed
    remediation := "Bind " ++ port_rule.name ++ " to localhost only (127.0.0.1) or use a firewall"
    details := "Process: " ++ p.process_name ++ ", State: " ++ p.state ++ ", PID: "
      ++ toString p.pid }

/-- The findings pushed by the inner snapshot loop of `check_exposed_ports`
for one port rule (`scanner.rs` lines 56-83): one finding per snapshot entry
whose port matches and is not judged safe. -/
def snapshotFindings (tool : AiToolSecurityRule) (port_rule : PortRule)
    (ports_info : List PortInfo) : List SecurityFinding :=
  ports_info.filterMap fun p =>
    if p.port == port_rule.port then
      if !(is_safe port_rule p) then some (portExposedFinding tool port_rule p) else none
    else none

/-- The duplicate test of the probe path (`scanner.rs` lines 88-90): some
already pushed finding has an issue text containing the decimal string of
the port. -/
def already_reported (findings : List SecurityFinding) (port : Nat) : Bool :=
  findings.any fun f => strContains f.issue (toString port)

/-- The finding pushed by the probe path of `check_exposed_ports`
(`scanner.rs` lines 93-111). -/
def portActiveFinding (tool : AiToolSecurityRule) (port_rule : PortRule) (status : String) :
    SecurityFinding :=
  { tool_id := tool.id
    tool_name := tool.name
    issue := "Port " ++ toString port_rule.port ++ " (" ++ port_rule.name ++ ") is active"
    description := port_rule.description
    risk_level := if port_rule.risk_if_exposed == RiskLevel.Critical then RiskLevel.High
      else RiskLevel.Medium
    remediation := "Verify " ++ port_rule.name ++ " is only accessible from trusted networks"
    details := status }

/-- The body of the outer loop of `check_exposed_ports` for one port rule
(`scanner.rs` lines 54-114): snapshot findings first, then the probe path
guarded by `already_reported`. -/
def processPortRule (probe : Nat → Bool) (tool : AiToolSecurityRule)
    (ports_info : List PortInfo) (findings : List SecurityFinding) (port_rule : PortRule) :
    List SecurityFinding :=
  let findings1 := findings ++ snapshotFindings tool port_rule ports_info
  match check_port_binding probe port_rule.port with
  | some status =>
    if !(already_reported findings1 port_rule.port) then
      findings1 ++ [portActiveFinding tool port_rule status]
    else findings1
  | none => findings1

/-- Model of `check_exposed_ports` (`scanner.rs`). -/
def check_exposed_ports (probe : Nat → Bool) (tool : AiToolSecurityRule)
    (ports_info : List PortInfo) : List SecurityFinding :=
  tool.ports.foldl (processPortRule probe tool ports_info) []

/-- The config finding shared by all `check_config_files` branches: only the
details text differs per branch. -/
def configFinding (tool : AiToolSecurityRule) (config_rule : ConfigRule) (details : String) :
    SecurityFinding :=
  { tool_id := tool.id
    tool_name := tool.name
    issue := config_rule.name
    description := config_rule.description
    risk_level := config_rule.risk_level
    remediation := config_rule.remediation
    details := details }

/-- The per-file body of the `FileContains` branch (`scanner.rs` lines
139-154 and 158-173): split the pattern on the pipe character, push one
finding at the first alternative contained in the content, then stop. -/
def fileContainsFileFindings (tool : AiToolSecurityRule) (config_rule : ConfigRule)
    (pattern : String) (filePath : String) (content : String) : List SecurityFinding :=
  let patterns := splitStr '|' pattern
  match patterns.find? (fun p => strContains content p) with
  | some _ => [configFinding tool config_rule ("Found in: " ++ filePath)]
  | none => []

/-- The per-config-path body of the `FileContains` branch (`scanner.rs`
lines 131-176): directory entries are each read and checked; a plain file is
read and checked directly; unreadable entries and missing paths are skipped. -/
def fileContainsPathFindings (env : ScanEnv) (home : String) (tool : AiToolSecurityRule)
    (config_rule : ConfigRule) (pattern : String) (config_path : String) :
    List SecurityFinding :=
  let full_path := joinPath home config_path
  if env.pathExists full_path then
    if env.isDir full_path then
      match env.readDir full_path with
      | some entries =>
        entries.flatMap fun entry =>
          match env.readFile entry with
          | some content => fileContainsFileFindings tool config_rule pattern entry content
          | none => []
      | none => []
    else
      match env.readFile full_path with
      | some content => fileContainsFileFindings tool config_rule pattern full_path content
      | none => []
  else []

/-- The per-config-path body of the `FileExists` branch (`scanner.rs` lines
179-192). -/
def fileExistsPathFindings (env : ScanEnv) (home : String) (tool : AiToolSecurityRule)
    (config_rule : ConfigRule) (config_path : String) : List SecurityFinding :=
  let full_path := joinPath home config_path
  if env.pathExists full_path then
    [configFinding tool config_rule ("File exists: " ++ full_path)]
  else []

/-- The per-file body of the `FileMissing` branch (`scanner.rs` lines
201-217): a readable child file lacking the required pattern yields one
finding naming that file. -/
def fileMissingFileFindings (tool : AiToolSecurityRule) (config_rule : ConfigRule)
    (pattern : String) (filePath : String) (content : String) : List SecurityFinding :=
  if !(strContains content pattern) then
    [configFinding tool config_rule
      ("Missing \x27" ++ pattern ++ "\x27 in: " ++ filePath)]
  else []

/-- The per-config-path body of the `FileMissing` branch (`scanner.rs` lines
196-221): only an existing directory is inspected; each readable child file
is checked for the required pattern. -/
def fileMissingPathFindings (env : ScanEnv) (home : String) (tool : AiToolSecurityRule)
    (config_rule : ConfigRule) (pattern : String) (config_path : String) :
    List SecurityFinding :=
  let full_path := joinPath home config_path
  if env.pathExists full_path && env.isDir full_path then
    match env.readDir full_path with
    | some entries =>
      entries.flatMap fun entry =>
        match env.readFile entry with
        | some content => fileMissingFileFindings tool config_rule pattern entry content
        | none => []
    | none => []
  else []

/-- The `EnvVar` branch (`scanner.rs` lines 223-239). -/
def envVarFindings (env : ScanEnv) (tool : AiToolSecurityRule) (config_rule : ConfigRule)
    (name : String) (insecure_value : Option String) : List SecurityFinding :=
  match env.getEnvVar name with
  | some value =>
    match insecure_value with
    | some insecure =>
      if value == insecure then
        [configFinding tool config_rule ("Env var " ++ name ++ " has insecure value")]
      else []
    | none => []
  | none => []

/-- Model of `check_config_files` (`scanner.rs`): empty when the home
directory is unresolvable, otherwise every config rule is evaluated against
every declared config path in order. -/
def check_config_files (env : ScanEnv) (tool : AiToolSecurityRule) : List SecurityFinding :=
  match get_home_dir env with
  | none => []
  | some home =>
    tool.configs.flatMap fun config_rule =>
      match config_rule.check with
      | ConfigCheckType.FileContains _ pattern =>
        tool.config_paths.flatMap
          (fileContainsPathFindings env home tool config_rule pattern)
      | ConfigCheckType.FileExists _ =>
        tool.config_paths.flatMap (fileExistsPathFindings env home tool config_rule)
      | ConfigCheckType.FileMissing _ pattern =>
        tool.config_paths.flatMap
          (fileMissingPathFindings env home tool config_rule pattern)
      | ConfigCheckType.EnvVar name insecure_value =>
        envVarFindings env tool config_rule name insecure_value

/-- The numeric severity key of the sort in `get_security_findings`
(`scanner.rs` lines 281-286). -/
def risk_order : RiskLevel → Nat
  | RiskLevel.Critical => 0
  | RiskLevel.High => 1
  | RiskLevel.Medium => 2
  | RiskLevel.Low => 3

/-- The comparison relation of the final sort: severity key order. -/
def riskLE (a b : SecurityFinding) : Prop :=
  risk_order a.risk_level ≤ risk_order b.risk_level

instance : DecidableRel riskLE := fun _ _ => Nat.decLe _ _

instance : IsTotal SecurityFinding riskLE := ⟨fun _ _ => Nat.le_total _ _⟩

instance : IsTrans SecurityFinding riskLE := ⟨fun _ _ _ => Nat.le_trans⟩

/-- Clawdbot gateway port rule (`definitions.rs` lines 141-147). -/
def clawdbotGatewayPort : PortRule :=
  { port := 18789
    name := "Clawdbot Gateway"
    description := "Primary gateway port - should NOT be exposed to internet"
    risk_if_exposed := RiskLevel.Critical
    safe_bindings := ["127.0.0.1", "localhost", "::1"] }

/-- Clawdbot control UI port rule (`definitions.rs` lines 148-154). -/
def clawdbotControlPort : PortRule :=
  { port := 18790
    name := "Clawdbot Control UI"
    description := "Admin web interface - exposes API keys and chat history"
    risk_if_exposed := RiskLevel.Critical
    safe_bindings := ["127.0.0.1", "localhost", "::1"] }

/-- Clawdbot trustedProxies config rule (`definitions.rs` lines 157-166). -/
def clawdbotTrustedProxiesConfig : ConfigRule :=
  { name := "Exposed trustedProxies"
    description := "trustedProxies may allow localhost auth bypass via reverse proxy"
    check := ConfigCheckType.FileMissing "**/clawdbot.config.*" "trustedProxies"
    risk_level := RiskLevel.High
    remediation := "Set gateway.trustedProxies to only trusted reverse proxy IPs" }

/-- Clawdbot API-keys config rule (`definitions.rs` lines 167-176). -/
def clawdbotApiKeysConfig : ConfigRule :=
  { name := "API Keys in Config"
    description := "Anthropic/OpenAI API keys stored in plaintext config"
    check := ConfigCheckType.FileContains "**/clawdbot.config.*" "sk-ant-|sk-"
    risk_level := RiskLevel.High
    remediation := "Use environment variables for API keys instead of config files" }

/-- Clawdbot catalog entry (`definitions.rs` lines 134-182). -/
def clawdbotRule : AiToolSecurityRule :=
  { id := "clawdbot"
    name := "Clawdbot"
    description := "Open-source AI agent gateway with MCP support"
    docs_url := "https://github.com/clawdbot/clawdbot"
    process_names := ["clawdbot", "clawdbot-server", "clawdbot-gateway"]
    ports := [clawdbotGatewayPort, clawdbotControlPort]
    configs := [clawdbotTrustedProxiesConfig, clawdbotApiKeysConfig]
    config_paths := [".clawdbot/", ".config/clawdbot/"] }

/-- OpenCode HTTP server port rule (`definitions.rs` lines 195-201). -/
def opencodeHttpPort : PortRule :=
  { port := 4096
    name := "OpenCode HTTP Server"
    description := "CVE-2026-22812: Unauthenticated HTTP server with CORS * - allows RCE from any website"
    risk_if_exposed := RiskLevel.Critical
    safe_bindings := ["127.0.0.1"] }

/-- OpenCode catalog entry (`definitions.rs` lines 188-233). -/
def opencodeRule : AiToolSecurityRule :=
  { id := "opencode"
    name := "OpenCode"
    description := "Terminal-based AI coding assistant (CVE-2026-22812)"
    docs_url := "https://github.com/opencode-ai/opencode"
    process_names := ["opencode"]
    ports :=
      [ opencodeHttpPort,
        { port := 4097
          name := "OpenCode HTTP Server (alt)"
          description := "CVE-2026-22812: Alternative port when 4096 is in use"
          risk_if_exposed := RiskLevel.Critical
          safe_bindings := ["127.0.0.1"] },
        { port := 8765
          name := "OpenCode Debug Server"
          description := "Debug/MCP server - should be localhost only"
          risk_if_exposed := RiskLevel.High
          safe_bindings := ["127.0.0.1", "localhost"] } ]
    configs :=
      [ { name := "API Keys in Config"
          description := "API keys stored in opencode config"
          check := ConfigCheckType.FileContains "**/opencode.json" "sk-"
          risk_level := RiskLevel.High
          remediation := "Use environment variables for API keys. Update to OpenCode >= 1.0.216 to fix CVE-2026-22812" } ]
    config_paths := [".opencode/", ".config/opencode/"] }

/-- Aider catalog entry (`definitions.rs` lines 238-269). -/
def aiderRule : AiToolSecurityRule :=
  { id := "aider"
    name := "Aider"
    description := "AI pair programming in your terminal"
    docs_url := "https://aider.chat"
    process_names := ["aider"]
    ports :=
      [ { port := 8501
          name := "Aider Web UI"
          description := "Aider browser interface"
          risk_if_exposed := RiskLevel.Medium
          safe_bindings := ["127.0.0.1", "localhost"] } ]
    configs :=
      [ { name := "API Keys in .aider.conf"
          description := "API keys in aider config file"
          check := ConfigCheckType.FileContains "**/.aider.conf*" "api_key"
          risk_level := RiskLevel.Medium
          remediation := "Use OPENAI_API_KEY or ANTHROPIC_API_KEY environment variables" } ]
    config_paths := [".aider.conf.yml", ".aider/"] }

/-- Claude Code catalog entry (`definitions.rs` lines 274-293). -/
def claudeCodeRule : AiToolSecurityRule :=
  { id := "claude-code"
    name := "Claude Code"
    description := "Anthropic\x27s official AI coding CLI"
    docs_url := "https://docs.anthropic.com/claude-code"
    process_names := ["claude", "claude-code"]
    ports :=
      [ { port := 9222
          name := "Claude Code Debug Port"
          description := "Chrome DevTools debug protocol port"
          risk_if_exposed := RiskLevel.Critical
          safe_bindings := ["127.0.0.1"] } ]
    configs := []
    config_paths := [".claude/"] }

/-- Codex CLI catalog entry (`definitions.rs` lines 298-321). -/
def codexCliRule : AiToolSecurityRule :=
  { id := "codex-cli"
    name := "Codex CLI"
    description := "OpenAI\x27s Codex command-line tool"
    docs_url := "https://github.com/openai/codex-cli"
    process_names := ["codex"]
    ports := []
    configs :=
      [ { name := "OpenAI API Key in config"
          description := "API key stored in codex config"
          check := ConfigCheckType.FileContains "**/codex/config.*" "sk-"
          risk_level := RiskLevel.Medium
          remediation := "Use OPENAI_API_KEY environment variable" } ]
    config_paths := [".codex/", ".config/codex/"] }

/-- Continue catalog entry (`definitions.rs` lines 326-345). -/
def continueRule : AiToolSecurityRule :=
  { id := "continue"
    name := "Continue"
    description := "Open-source AI code assistant (VS Code extension)"
    docs_url := "https://continue.dev"
    process_names := ["continue"]
    ports :=
      [ { port := 65432
          name := "Continue Local Server"
          description := "Continue\x27s local model server"
          risk_if_exposed := RiskLevel.Medium
          safe_bindings := ["127.0.0.1", "localhost"] } ]
    configs := []
    config_paths := [".continue/"] }

/-- Cursor catalog entry (`definitions.rs` lines 351-382). -/
def cursorRule : AiToolSecurityRule :=
  { id := "cursor"
    name := "Cursor"
    description := "AI-first code editor based on VS Code"
    docs_url := "https://cursor.sh"
    process_names := ["cursor", "cursor-helper"]
    ports :=
      [ { port := 9229
          name := "Cursor Debug Port"
          description := "Node.js inspector port - allows remote code execution if exposed"
          risk_if_exposed := RiskLevel.Critical
          safe_bindings := ["127.0.0.1"] } ]
    configs :=
      [ { name := "Workspace Trust Disabled"
          description := "Malicious .vscode/tasks.json can execute arbitrary code on project open"
          check := ConfigCheckType.FileMissing "**/settings.json" "security.workspace.trust"
          risk_level := RiskLevel.Medium
          remediation := "Enable Workspace Trust feature in Cursor settings. Audit .vscode/tasks.json in untrusted repos" } ]
    config_paths := [".cursor/", ".vscode/"] }

/-- Windsurf catalog entry (`definitions.rs` lines 387-406). -/
def windsurfRule : AiToolSecurityRule :=
  { id := "windsurf"
    name := "Windsurf"
    description := "Codeium\x27s AI-powered IDE"
    docs_url := "https://codeium.com/windsurf"
    process_names := ["windsurf"]
    ports :=
      [ { port := 42424
          name := "Windsurf Language Server"
          description := "AI language server port"
          risk_if_exposed := RiskLevel.Medium
          safe_bindings := ["127.0.0.1", "localhost"] } ]
    configs := []
    config_paths := [".windsurf/"] }

/-- MCP Servers catalog entry (`definitions.rs` lines 412-450). -/
def mcpServersRule : AiToolSecurityRule :=
  { id := "mcp-servers"
    name := "MCP Servers"
    description := "Model Context Protocol servers - 36.7% vulnerable to SSRF (2026)"
    docs_url := "https://modelcontextprotocol.io"
    process_names := ["mcp-server", "mcp"]
    ports :=
      [ { port := 3000
          name := "MCP Server Default"
          description := "Common MCP server port - check for auth and CORS settings"
          risk_if_exposed := RiskLevel.High
          safe_bindings := ["127.0.0.1"] },
        { port := 8080
          name := "MCP Server HTTP"
          description := "MCP HTTP server - verify authentication is enabled"
          risk_if_exposed := RiskLevel.High
          safe_bindings := ["127.0.0.1"] } ]
    configs :=
      [ { name := "API Keys in MCP Config"
          description := "Credentials exposed via environment variables or config"
          check := ConfigCheckType.FileContains "**/mcp.json" "sk-|api_key|apiKey|API_KEY"
          risk_level := RiskLevel.Critical
          remediation := "Use secret management. Never store API keys in MCP config files" } ]
    config_paths := [".mcp/", ".config/mcp/"] }

/-- Gemini CLI catalog entry (`definitions.rs` lines 455-478). -/
def geminiCliRule : AiToolSecurityRule :=
  { id := "gemini-cli"
    name := "Gemini CLI"
    description := "Google\x27s Gemini AI coding assistant"
    docs_url := "https://cloud.google.com/vertex-ai/docs/generative-ai/gemini"
    process_names := ["gemini"]
    ports := []
    configs :=
      [ { name := "API Keys in Config"
          description := "Google API keys stored in config"
          check := ConfigCheckType.FileContains "**/settings.json" "AIza"
          risk_level := RiskLevel.Medium
          remediation := "Use GOOGLE_API_KEY environment variable or gcloud auth" } ]
    config_paths := [".gemini/", ".config/gemini-cli/"] }

/-- Model of `get_ai_tool_rules` (`definitions.rs`): the full static catalog. -/
def get_ai_tool_rules : List AiToolSecurityRule :=
  [ clawdbotRule, opencodeRule, aiderRule, claudeCodeRule, codexCliRule,
    continueRule, cursorRule, windsurfRule, mcpServersRule, geminiCliRule ]

/-- Model of the public static `AI_TOOL_SECURITY_RULES` (`definitions.rs`
line 490): a compile-time constant empty slice. -/
def AI_TOOL_SECURITY_RULES : List AiToolSecurityRule := []

/-- Model of `get_rules` (`definitions.rs`): the lazily initialized
`OnceLock` always holds the value of `get_ai_tool_rules`, so every call
returns that same catalog. -/
def get_rules : List AiToolSecurityRule :=
  get_ai_tool_rules

/-- Model of `get_security_findings` (`scanner.rs`): per-tool port and
config findings concatenated over the catalog, then sorted by severity key.
Rust `sort_by` is a stable sort; the stable `List.insertionSort` computes
the same result. -/
def get_security_findings (env : ScanEnv) : List SecurityFinding :=
  let ports_info := env.portsInUse
  let rules := get_rules
  let all_findings := rules.flatMap fun tool =>
    check_exposed_ports env.probe tool ports_info ++ check_config_files env tool
  List.insertionSort riskLE all_findings

/-- The summary counters computed from a findings list: the expressions are
duplicated verbatim in `scan_ai_tool_security` (`scanner.rs` lines 298-316)
and `scan_specific_tool` (lines 344-362). -/
def summarize (findings : List SecurityFinding) : SecuritySummary :=
  { total_findings := findings.length
    critical := (findings.filter fun f => f.risk_level == RiskLevel.Critical).length
    high := (findings.filter fun f => f.risk_level == RiskLevel.High).length
    medium := (findings.filter fun f => f.risk_level == RiskLevel.Medium).length
    low := (findings.filter fun f => f.risk_level == RiskLevel.Low).length }

/-- Model of `scan_ai_tool_security` (`scanner.rs`): the full-catalog scan. -/
def scan_ai_tool_security (env : ScanEnv) : SecurityScanResult :=
  let findings := get_security_findings env
  let rules := get_rules
  { scan_time := env.now
    tools_scanned := rules.map fun t => t.name
    findings := findings
    summary := summarize findings }

/-- Model of `scan_specific_tool` (`scanner.rs`): the single-tool scan; the
question-mark operator on the registry lookup yields `none` for an unknown
id.  Note that, unlike the full scan, the findings are not sorted. -/
def scan_specific_tool (env : ScanEnv) (tool_id : String) : Option SecurityScanResult :=
  let rules := get_rules
  match rules.find? (fun t => t.id == tool_id) with
  | none => none
  | some tool =>
    let ports_info := env.portsInUse
    let findings := check_exposed_ports env.probe tool ports_info
      ++ check_config_files env tool
    some
      { scan_time := env.now
        tools_scanned := [tool.name]
        findings := findings
        summary := summarize findings }

/-- Safety judgement as the specification words it, for comparison with the
source `is_safe`: some marker of the safe-binding set itself describes the
observed binding, i.e. the lowercased process name or the state string
contains that marker. -/
def is_safe_spec (port_rule : PortRule) (p : PortInfo) : Bool :=
  port_rule.safe_bindings.any fun safe =>
    strContains (lowerStr p.process_name) safe || strContains p.state safe

/-- Environment with no resolvable home directory, no filesystem, no open
ports and a failing probe. -/
def envEmpty : ScanEnv :=
  { home := none
    pathExists := fun _ => false
    isDir := fun _ => false
    readDir := fun _ => none
    readFile := fun _ => none
    getEnvVar := fun _ => none
    probe := fun _ => false
    portsInUse := []
    now := "t0" }

/-- Snapshot entry: an unsafely bound listener on the Clawdbot control port. -/
def pInfo18790 : PortInfo :=
  { port := 18790, process_name := "python", pid := 1, state := "0.0.0.0:18790 LISTEN" }

/-- Environment where the probe succeeds only on port 18789 while the
snapshot shows port 18790 unsafely bound: the probe path fires before the
snapshot path of the next port rule. -/
def envProbe18789 : ScanEnv :=
  { envEmpty with
    probe := fun n => n == 18789
    portsInUse := [pInfo18790] }

/-- Snapshot entry: an unsafely bound listener on the Clawdbot gateway port. -/
def pInfo18789 : PortInfo :=
  { port := 18789, process_name := "python", pid := 1, state := "0.0.0.0:18789 LISTEN" }

/-- Second snapshot entry for the same port with a different process id, as
happens when the snapshot lists one entry per socket. -/
def pInfo18789b : PortInfo :=
  { port := 18789, process_name := "python", pid := 2, state := "0.0.0.0:18789 LISTEN" }

/-- Environment whose snapshot lists the Clawdbot gateway port twice. -/
def envDupSnapshot : ScanEnv :=
  { envEmpty with portsInUse := [pInfo18789, pInfo18789b] }

/-- Snapshot entry on the OpenCode HTTP port whose process name contains the
fixed "localhost" marker while neither the process name nor the state
matches the single safe-binding marker "127.0.0.1" of the rule. -/
def pInfoLocalhostProc : PortInfo :=
  { port := 4096, process_name := "localhost", pid := 7, state := "0.0.0.0:4096 LISTEN" }

/-- Snapshot entry on the OpenCode HTTP port that is unsafe under both the
source heuristic and the specification wording. -/
def pInfoPython4096 : PortInfo :=
  { port := 4096, process_name := "python", pid := 8, state := "0.0.0.0:4096 LISTEN" }

/-- A snapshot-path finding for the Clawdbot gateway port, used as an
already-emitted in-pass finding in witnesses. -/
def reportedFinding18789 : SecurityFinding :=
  portExposedFinding clawdbotRule clawdbotGatewayPort pInfo18789

/-- Environment whose filesystem holds one Clawdbot config directory with
two readable child files, both containing an API-key-like substring and
neither containing the trustedProxies hardening token. -/
def envTwoFiles : ScanEnv :=
  { envEmpty with
    home := some "home"
    pathExists := fun s => s == "home/.clawdbot/"
    isDir := fun s => s == "home/.clawdbot/"
    readDir := fun s =>
      if s == "home/.clawdbot/" then
        some ["home/.clawdbot/a.json", "home/.clawdbot/b.json"]
      else none
    readFile := fun s =>
      if s == "home/.clawdbot/a.json" then some "key: sk-test123"
      else if s == "home/.clawdbot/b.json" then some "key: sk-test456"
      else none }

/-- Environment where the first Clawdbot config path resolves to a plain
file rather than a directory. -/
def envPlainFile : ScanEnv :=
  { envEmpty with
    home := some "home"
    pathExists := fun s => s == "home/.clawdbot/"
    isDir := fun _ => false
    readFile := fun s =>
      if s == "home/.clawdbot/" then some "port: 18789" else none }

/-- The scan result of the single-tool scan of Clawdbot in the empty
environment: no findings and an all-zero summary. -/
def rEmptyClawdbot : SecurityScanResult :=
  { scan_time := "t0"
    tools_scanned := ["Clawdbot"]
    findings := []
    summary := { total_findings := 0, critical := 0, high := 0, medium := 0, low := 0 } }

/-- A list starts with itself followed by anything. -/
theorem isPrefixB_self_append (y z : List Char) : isPrefixB y (y ++ z) = true := by
  induction y with
  | nil => rfl
  | cons c cs ih => simp [isPrefixB, ih]

/-- A run found at the head of the list is found inside the list. -/
theorem insideB_here {y l : List Char} (h : isPrefixB y l = true) : isInsideB y l = true := by
  cases l with
  | nil => simpa [isInsideB] using h
  | cons c rest => simp [isInsideB, h]

/-- A run found inside a list is still found after material is put in front. -/
theorem insideB_lift (x : List Char) {y l : List Char} (h : isInsideB y l = true) :
    isInsideB y (x ++ l) = true := by
  induction x with
  | nil => simpa using h
  | cons c cs ih => simp [isInsideB, ih]

/-- A list is found inside any list that embeds it contiguously. -/
theorem insideB_mid (x y z : List Char) : isInsideB y (x ++ (y ++ z)) = true :=
  insideB_lift x (insideB_here (isPrefixB_self_append y z))

/-- The issue text of a probe-path finding contains the decimal string of
the port of its rule. -/
theorem strContains_portActive (tool : AiToolSecurityRule) (port_rule : PortRule)
    (status : String) :
    strContains (portActiveFinding tool port_rule status).issue (toString port_rule.port)
      = true := by
  show isInsideB (toString port_rule.port).data
    ("Port " ++ toString port_rule.port ++ " (" ++ port_rule.name ++ ") is active").data = true
  simp only [String.data_append, List.append_assoc]
  exact insideB_mid _ _ _

/-- The issue text of a snapshot-path finding contains the decimal string of
the port of its rule. -/
theorem strContains_portExposed (tool : AiToolSecurityRule) (port_rule : PortRule)
    (p : PortInfo) :
    strContains (portExposedFinding tool port_rule p).issue (toString port_rule.port)
      = true := by
  show isInsideB (toString port_rule.port).data
    ("Port " ++ toString port_rule.port ++ " (" ++ port_rule.name ++ ") is exposed").data = true
  simp only [String.data_append, List.append_assoc]
  exact insideB_mid _ _ _

/-- An `any` of a constant condition tests only non-emptiness of the list. -/
theorem any_const_eq {α : Type} (l : List α) (c : Bool) :
    (l.any fun _ => c) = (!l.isEmpty && c) := by
  cases l with
  | nil => rfl
  | cons x xs => cases c <;> simp

/-- Every finding carries exactly one of the four risk levels, so the four
per-level filters tile the list. -/
theorem filter_risk_sum (l : List SecurityFinding) :
    (l.filter fun f => f.risk_level == RiskLevel.Critical).length
      + (l.filter fun f => f.risk_level == RiskLevel.High).length
      + (l.filter fun f => f.risk_level == RiskLevel.Medium).length
      + (l.filter fun f => f.risk_level == RiskLevel.Low).length = l.length := by
  induction l with
  | nil => rfl
  | cons f t ih =>
    cases h : f.risk_level <;> simp [List.filter_cons, h] <;> omega

/-- C9: when the home directory environment variable is absent,
`check_config_files` returns the empty findings list for every tool, rather
than failing, so config checks contribute zero findings to the scan. -/
theorem C9_home_unresolvable (env : ScanEnv) (tool : AiToolSecurityRule)
    (h : env.home = none) : check_config_files env tool = [] := by
  simp [check_config_files, get_home_dir, h]

/-- Witness for C9 at the concrete empty environment and the Clawdbot rule. -/
theorem C9_home_unresolvable_witness :
    envEmpty.home = none ∧ check_config_files envEmpty clawdbotRule = [] :=
  ⟨rfl, C9_home_unresolvable envEmpty clawdbotRule rfl⟩

/-- C10: the exported static `AI_TOOL_SECURITY_RULES` is the empty list,
while `get_rules` returns the ten-tool catalog, so the static never equals
the catalog and a caller reading it sees no tools. -/
theorem C10_static_empty :
    AI_TOOL_SECURITY_RULES = ([] : List AiToolSecurityRule)
    ∧ get_rules.length = 10
    ∧ AI_TOOL_SECURITY_RULES ≠ get_rules := by
  refine ⟨rfl, rfl, fun h => absurd (congrArg List.length h) (by decide)⟩

/-- C8: a tool id matching no catalog entry makes `scan_specific_tool`
return the absent result, and a tool id matching some catalog entry makes
it return a present result. -/
theorem C8_unknown_tool (env : ScanEnv) (tool_id : String) :
    (get_rules.all (fun t => t.id != tool_id) = true →
      scan_specific_tool env tool_id = none)
    ∧ (get_rules.any (fun t => t.id == tool_id) = true →
        (scan_specific_tool env tool_id).isSome = true) := by
  constructor
  · intro h
    have hf : get_rules.find? (fun t => t.id == tool_id) = none := by
      rw [List.find?_eq_none]
      intro x hx
      have hne := List.all_eq_true.mp h x hx
      simp only [bne_iff_ne, ne_eq] at hne
      simp [hne]
    simp [scan_specific_tool, hf]
  · intro h
    have hf : (get_rules.find? (fun t => t.id == tool_id)).isSome = true := by
      rw [List.find?_isSome]
      exact List.any_eq_true.mp h
    obtain ⟨tool, hf2⟩ := Option.isSome_iff_exists.mp hf
    simp [scan_specific_tool, hf2]

/-- Witness for C8: the id "no-such-tool" matches no catalog entry and
yields the absent result; the id "clawdbot" matches an entry and yields a
present result. -/
theorem C8_unknown_tool_witness :
    get_rules.all (fun t => t.id != "no-such-tool") = true
    ∧ scan_specific_tool envEmpty "no-such-tool" = none
    ∧ get_rules.any (fun t => t.id == "clawdbot") = true
    ∧ (scan_specific_tool envEmpty "clawdbot").isSome = true :=
  ⟨by decide, (C8_unknown_tool envEmpty "no-such-tool").1 (by decide), by decide,
    (C8_unknown_tool envEmpty "clawdbot").2 (by decide)⟩

/-- C4 (amended): the snapshot-path safety judgement ignores the contents of
the safe-binding markers; it is true exactly when the marker set is
non-empty and the fixed loopback heuristic holds (lowercased process name
containing "localhost" or state containing "127.0.0.1"); a matching
snapshot entry not judged safe yields the finding at the declared
`risk_if_exposed` level. -/
theorem C4_safe_binding_heuristic :
    (∀ (port_rule : PortRule) (p : PortInfo),
      is_safe port_rule p
        = (!port_rule.safe_bindings.isEmpty
            && (strContains (lowerStr p.process_name) "localhost"
                || strContains p.state "127.0.0.1")))
    ∧ (∀ (tool : AiToolSecurityRule) (port_rule : PortRule) (p : PortInfo),
        p.port = port_rule.port → is_safe port_rule p = false →
        snapshotFindings tool port_rule [p] = [portExposedFinding tool port_rule p]
        ∧ (portExposedFinding tool port_rule p).risk_level = port_rule.risk_if_exposed) := by
  constructor
  · intro port_rule p
    exact any_const_eq port_rule.safe_bindings _
  · intro tool port_rule p hport hsafe
    refine ⟨?_, rfl⟩
    simp [snapshotFindings, List.filterMap_cons, hport, hsafe]

/-- Counterexample for C4 as stated: the first OpenCode port rule has the
single safe-binding marker "127.0.0.1"; the observed entry matches that
marker in neither the process name nor the state, so under the claim it is
not safe and a finding is emitted; the source judges it safe (the process
name contains the fixed indicator "localhost") and emits nothing. -/
theorem C4_marker_ignored_cex :
    opencodeRule.ports.head? = some opencodeHttpPort
    ∧ pInfoLocalhostProc.port = opencodeHttpPort.port
    ∧ is_safe opencodeHttpPort pInfoLocalhostProc = true
    ∧ is_safe_spec opencodeHttpPort pInfoLocalhostProc = false
    ∧ snapshotFindings opencodeRule opencodeHttpPort [pInfoLocalhostProc] = [] :=
  ⟨rfl, rfl, by decide, by decide, by decide⟩

/-- Witness for C4 (amended) at a concrete unsafe snapshot entry on the
OpenCode HTTP port. -/
theorem C4_safe_binding_heuristic_witness :
    pInfoPython4096.port = opencodeHttpPort.port
    ∧ is_safe opencodeHttpPort pInfoPython4096 = false
    ∧ (snapshotFindings opencodeRule opencodeHttpPort [pInfoPython4096]
        = [portExposedFinding opencodeRule opencodeHttpPort pInfoPython4096]
      ∧ (portExposedFinding opencodeRule opencodeHttpPort pInfoPython4096).risk_level
        = opencodeHttpPort.risk_if_exposed) :=
  ⟨rfl, by decide,
    C4_safe_binding_heuristic.2 opencodeRule opencodeHttpPort pInfoPython4096 rfl (by decide)⟩

/-- C5: in the loop body for one port rule, a successful probe with no
in-pass finding mentioning the port appends exactly one secondary finding
whose risk level is the declared level downgraded one notch (Critical to
High, every other level to Medium); a failed probe, or an in-pass finding
already mentioning the port, appends nothing on the probe path. -/
theorem C5_probe_downgrade (probe : Nat → Bool) (tool : AiToolSecurityRule)
    (ports_info : List PortInfo) (findings : List SecurityFinding) (port_rule : PortRule) :
    (probe port_rule.port = true →
      already_reported (findings ++ snapshotFindings tool port_rule ports_info)
          port_rule.port = false →
      processPortRule probe tool ports_info findings port_rule
        = (findings ++ snapshotFindings tool port_rule ports_info)
          ++ [portActiveFinding tool port_rule "Listening on localhost"]
      ∧ (portActiveFinding tool port_rule "Listening on localhost").risk_level
        = (match port_rule.risk_if_exposed with
           | RiskLevel.Critical => RiskLevel.High
           | RiskLevel.High => RiskLevel.Medium
           | RiskLevel.Medium => RiskLevel.Medium
           | RiskLevel.Low => RiskLevel.Medium))
    ∧ (probe port_rule.port = false →
        processPortRule probe tool ports_info findings port_rule
          = findings ++ snapshotFindings tool port_rule ports_info)
    ∧ (already_reported (findings ++ snapshotFindings tool port_rule ports_info)
          port_rule.port = true →
        processPortRule probe tool ports_info findings port_rule
          = findings ++ snapshotFindings tool port_rule ports_info) := by
  refine ⟨?_, ?_, ?_⟩
  · intro hp hr
    constructor
    · simp [processPortRule, check_port_binding, hp, hr]
    · cases h : port_rule.risk_if_exposed <;> simp [portActiveFinding, h]
  · intro hp
    simp [processPortRule, check_port_binding, hp]
  · intro hr
    cases hp : probe port_rule.port with
    | false => simp [processPortRule, check_port_binding, hp]
    | true => simp [processPortRule, check_port_binding, hp, hr]

/-- Witness for C5: a successful probe of the Clawdbot gateway port with an
empty snapshot and no in-pass findings appends the one downgraded finding,
at level High because the declared level is Critical. -/
theorem C5_probe_downgrade_witness :
    (fun (_ : Nat) => true) clawdbotGatewayPort.port = true
    ∧ already_reported ([] ++ snapshotFindings clawdbotRule clawdbotGatewayPort [])
        clawdbotGatewayPort.port = false
    ∧ (processPortRule (fun _ => true) clawdbotRule [] [] clawdbotGatewayPort
        = ([] ++ snapshotFindings clawdbotRule clawdbotGatewayPort [])
          ++ [portActiveFinding clawdbotRule clawdbotGatewayPort "Listening on localhost"]
      ∧ (portActiveFinding clawdbotRule clawdbotGatewayPort
          "Listening on localhost").risk_level = RiskLevel.High) :=
  ⟨rfl, by decide,
    (C5_probe_downgrade (fun _ => true) clawdbotRule [] [] clawdbotGatewayPort).1 rfl
      (by decide)⟩

/-- C3 (amended): a port already reported in the pass is never reported
again by the probe path.  Once some in-pass finding mentions the port, that
mark survives any later appends; both the snapshot-path and the probe-path
findings of a port rule mention that rule's port; and the probe path of the
loop body appends nothing when the port is already mentioned.  (The
snapshot path itself, by contrast, emits one finding per matching unsafe
snapshot entry, so a duplicated snapshot entry duplicates the finding; see
the counterexample.) -/
theorem C3_probe_suppression :
    (∀ (findings more : List SecurityFinding) (port : Nat),
      already_reported findings port = true → already_reported (findings ++ more) port = true)
    ∧ (∀ (tool : AiToolSecurityRule) (port_rule : PortRule) (status : String),
        already_reported [portActiveFinding tool port_rule status] port_rule.port = true)
    ∧ (∀ (tool : AiToolSecurityRule) (port_rule : PortRule) (p : PortInfo),
        already_reported [portExposedFinding tool port_rule p] port_rule.port = true)
    ∧ (∀ (probe : Nat → Bool) (tool : AiToolSecurityRule) (ports_info : List PortInfo)
        (findings : List SecurityFinding) (port_rule : PortRule),
        already_reported (findings ++ snapshotFindings tool port_rule ports_info)
            port_rule.port = true →
        processPortRule probe tool ports_info findings port_rule
          = findings ++ snapshotFindings tool port_rule ports_info) := by
  refine ⟨?_, ?_, ?_, ?_⟩
  · intro findings more port h
    simp [already_reported, List.any_append] at h ⊢
    exact Or.inl h
  · intro tool port_rule status
    simp [already_reported, strContains_portActive]
  · intro tool port_rule p
    simp [already_reported, strContains_portExposed]
  · intro probe tool ports_info findings port_rule hr
    cases hp : probe port_rule.port with
    | false => simp [processPortRule, check_port_binding, hp]
    | true => simp [processPortRule, check_port_binding, hp, hr]

/-- Counterexample for C3 as stated: a snapshot listing the Clawdbot
gateway port twice makes the single-tool scan report two findings for the
one port number 18789. -/
theorem C3_duplicate_port_findings_cex :
    (scan_specific_tool envDupSnapshot "clawdbot").map
        (fun r => (r.findings.length, r.findings.map (fun f => f.issue)))
      = some (2, ["Port 18789 (Clawdbot Gateway) is exposed",
                  "Port 18789 (Clawdbot Gateway) is exposed"]) := by
  decide

/-- Witness for C3 (amended) at a concrete already-reported gateway port. -/
theorem C3_probe_suppression_witness :
    already_reported [reportedFinding18789] 18789 = true
    ∧ already_reported ([reportedFinding18789] ++ []) 18789 = true
    ∧ already_reported ([reportedFinding18789]
        ++ snapshotFindings clawdbotRule clawdbotGatewayPort []) clawdbotGatewayPort.port = true
    ∧ processPortRule (fun _ => true) clawdbotRule [] [reportedFinding18789]
        clawdbotGatewayPort
      = [reportedFinding18789] ++ snapshotFindings clawdbotRule clawdbotGatewayPort [] :=
  ⟨by decide, C3_probe_suppression.1 [reportedFinding18789] [] 18789 (by decide),
    by decide,
    C3_probe_suppression.2.2.2 (fun _ => true) clawdbotRule [] [reportedFinding18789]
      clawdbotGatewayPort (by decide)⟩

/-- C1 (amended): the findings list of the full scan is totally ordered by
risk level, Critical before High before Medium before Low: any earlier
position carries a severity key at most that of any later position.  (The
single-tool scan leaves findings in emission order; see the
counterexample.) -/
theorem C1_full_scan_sorted (env : ScanEnv)
    (i j : Fin (scan_ai_tool_security env).findings.length) (hij : i < j) :
    risk_order ((scan_ai_tool_security env).findings.get i).risk_level
      ≤ risk_order ((scan_ai_tool_security env).findings.get j).risk_level := by
  have hs : List.Pairwise riskLE (scan_ai_tool_security env).findings :=
    List.sorted_insertionSort riskLE _
  exact List.pairwise_iff_get.mp hs i j hij

/-- Counterexample for C1 as stated: the single-tool scan of Clawdbot in an
environment where the probe succeeds on the gateway port and the snapshot
shows the control port unsafely bound returns the findings in emission
order High then Critical, although Critical precedes High in the risk
order. -/
theorem C1_single_tool_unsorted_cex :
    (scan_specific_tool envProbe18789 "clawdbot").map
        (fun r => r.findings.map (fun f => f.risk_level))
      = some [RiskLevel.High, RiskLevel.Critical]
    ∧ risk_order RiskLevel.Critical < risk_order RiskLevel.High :=
  ⟨by decide, by decide⟩

/-- Witness for C1 (amended) on the two-finding full scan of the duplicated
snapshot environment. -/
theorem C1_full_scan_sorted_witness :
    ((⟨0, by decide⟩ : Fin (scan_ai_tool_security envDupSnapshot).findings.length)
        < ⟨1, by decide⟩)
    ∧ risk_order
        ((scan_ai_tool_security envDupSnapshot).findings.get ⟨0, by decide⟩).risk_level
      ≤ risk_order
        ((scan_ai_tool_security envDupSnapshot).findings.get ⟨1, by decide⟩).risk_level :=
  ⟨by decide,
    C1_full_scan_sorted envDupSnapshot ⟨0, by decide⟩ ⟨1, by decide⟩ (by decide)⟩

/-- Summary counters computed by `summarize` tally the findings list
exactly: the total is the length, each per-level counter is the per-level
filter length, and the four counters sum to the total. -/
theorem summarize_props (l : List SecurityFinding) :
    (summarize l).total_findings = l.length
    ∧ (summarize l).critical + (summarize l).high + (summarize l).medium + (summarize l).low
        = (summarize l).total_findings
    ∧ (summarize l).critical = (l.filter fun f => f.risk_level == RiskLevel.Critical).length
    ∧ (summarize l).high = (l.filter fun f => f.risk_level == RiskLevel.High).length
    ∧ (summarize l).medium = (l.filter fun f => f.risk_level == RiskLevel.Medium).length
    ∧ (summarize l).low = (l.filter fun f => f.risk_level == RiskLevel.Low).length :=
  ⟨rfl, filter_risk_sum l, rfl, rfl, rfl, rfl⟩

/-- C2: for the full scan and for every present single-tool scan result,
the summary total equals the findings length, each per-level counter
tallies the findings with that risk level, and the four counters sum to the
total. -/
theorem C2_summary_counts :
    (∀ env : ScanEnv,
      (scan_ai_tool_security env).summary.total_findings
          = (scan_ai_tool_security env).findings.length
      ∧ (scan_ai_tool_security env).summary.critical
            + (scan_ai_tool_security env).summary.high
            + (scan_ai_tool_security env).summary.medium
            + (scan_ai_tool_security env).summary.low
          = (scan_ai_tool_security env).summary.total_findings
      ∧ (scan_ai_tool_security env).summary.critical
          = ((scan_ai_tool_security env).findings.filter
              fun f => f.risk_level == RiskLevel.Critical).length
      ∧ (scan_ai_tool_security env).summary.high
          = ((scan_ai_tool_security env).findings.filter
              fun f => f.risk_level == RiskLevel.High).length
      ∧ (scan_ai_tool_security env).summary.medium
          = ((scan_ai_tool_security env).findings.filter
              fun f => f.risk_level == RiskLevel.Medium).length
      ∧ (scan_ai_tool_security env).summary.low
          = ((scan_ai_tool_security env).findings.filter
              fun f => f.risk_level == RiskLevel.Low).length)
    ∧ (∀ (env : ScanEnv) (tool_id : String) (r : SecurityScanResult),
        scan_specific_tool env tool_id = some r →
        r.summary.total_findings = r.findings.length
        ∧ r.summary.critical + r.summary.high + r.summary.medium + r.summary.low
            = r.summary.total_findings
        ∧ r.summary.critical
            = (r.findings.filter fun f => f.risk_level == RiskLevel.Critical).length
        ∧ r.summary.high
            = (r.findings.filter fun f => f.risk_level == RiskLevel.High).length
        ∧ r.summary.medium
            = (r.findings.filter fun f => f.risk_level == RiskLevel.Medium).length
        ∧ r.summary.low
            = (r.findings.filter fun f => f.risk_level == RiskLevel.Low).length) := by
  constructor
  · intro env
    exact summarize_props (get_security_findings env)
  · intro env tool_id r h
    cases hf : get_rules.find? (fun t => t.id == tool_id) with
    | none =>
      simp only [scan_specific_tool, hf] at h
      exact Option.noConfusion h
    | some tool =>
      simp only [scan_specific_tool, hf, Option.some.injEq] at h
      subst h
      exact summarize_props _

/-- Witness for C2 on the single-tool scan of Clawdbot in the empty
environment. -/
theorem C2_summary_counts_witness :
    scan_specific_tool envEmpty "clawdbot" = some rEmptyClawdbot
    ∧ (rEmptyClawdbot.summary.total_findings = rEmptyClawdbot.findings.length
      ∧ rEmptyClawdbot.summary.critical + rEmptyClawdbot.summary.high
            + rEmptyClawdbot.summary.medium + rEmptyClawdbot.summary.low
          = rEmptyClawdbot.summary.total_findings
      ∧ rEmptyClawdbot.summary.critical
          = (rEmptyClawdbot.findings.filter
              fun f => f.risk_level == RiskLevel.Critical).length
      ∧ rEmptyClawdbot.summary.high
          = (rEmptyClawdbot.findings.filter
              fun f => f.risk_level == RiskLevel.High).length
      ∧ rEmptyClawdbot.summary.medium
          = (rEmptyClawdbot.findings.filter
              fun f => f.risk_level == RiskLevel.Medium).length
      ∧ rEmptyClawdbot.summary.low
          = (rEmptyClawdbot.findings.filter
              fun f => f.risk_level == RiskLevel.Low).length) :=
  ⟨by decide, C2_summary_counts.2 envEmpty "clawdbot" rEmptyClawdbot (by decide)⟩

/-- C6: a FileContains pattern is split on the pipe character into
alternatives tested as substrings; each candidate file yields exactly one
finding when some alternative occurs in its content and none otherwise; a
directory contributes the concatenation of the per-child-file findings, so
distinct matching files yield their own findings; the pattern
"sk-ant-|sk-" against a content containing "sk-test123" yields exactly one
finding, and the two-file example directory yields exactly two. -/
theorem C6_file_contains :
    (∀ (tool : AiToolSecurityRule) (config_rule : ConfigRule)
        (pattern filePath content : String),
      (fileContainsFileFindings tool config_rule pattern filePath content).length
        = if (splitStr '|' pattern).any (fun p => strContains content p) then 1 else 0)
    ∧ (∀ (env : ScanEnv) (home : String) (tool : AiToolSecurityRule)
        (config_rule : ConfigRule) (pattern config_path : String) (entries : List String),
        env.pathExists (joinPath home config_path) = true →
        env.isDir (joinPath home config_path) = true →
        env.readDir (joinPath home config_path) = some entries →
        fileContainsPathFindings env home tool config_rule pattern config_path
          = entries.flatMap fun entry =>
              match env.readFile entry with
              | some content =>
                fileContainsFileFindings tool config_rule pattern entry content
              | none => [])
    ∧ (fileContainsFileFindings clawdbotRule clawdbotApiKeysConfig "sk-ant-|sk-"
        "home/.clawdbot/a.json" "key: sk-test123").length = 1
    ∧ (fileContainsPathFindings envTwoFiles "home" clawdbotRule clawdbotApiKeysConfig
        "sk-ant-|sk-" ".clawdbot/").length = 2 := by
  refine ⟨?_, ?_, by decide, by decide⟩
  · intro tool config_rule pattern filePath content
    cases hf : (splitStr '|' pattern).find? (fun p => strContains content p) with
    | none =>
      have ha : (splitStr '|' pattern).any (fun p => strContains content p) = false := by
        rw [← Bool.not_eq_true, List.any_eq_true]
        rintro ⟨x, hx, hp⟩
        exact absurd hp (by simpa using List.find?_eq_none.mp hf x hx)
      simp [fileContainsFileFindings, hf, ha]
    | some x =>
      have ha : (splitStr '|' pattern).any (fun p => strContains content p) = true :=
        List.any_eq_true.mpr ⟨x, List.mem_of_find?_eq_some hf, List.find?_some hf⟩
      simp [fileContainsFileFindings, hf, ha]
  · intro env home tool config_rule pattern config_path entries h1 h2 h3
    simp [fileContainsPathFindings, h1, h2, h3]

/-- Witness for C6 on the two-file Clawdbot config directory. -/
theorem C6_file_contains_witness :
    envTwoFiles.pathExists (joinPath "home" ".clawdbot/") = true
    ∧ envTwoFiles.isDir (joinPath "home" ".clawdbot/") = true
    ∧ envTwoFiles.readDir (joinPath "home" ".clawdbot/")
        = some ["home/.clawdbot/a.json", "home/.clawdbot/b.json"]
    ∧ fileContainsPathFindings envTwoFiles "home" clawdbotRule clawdbotApiKeysConfig
        "sk-ant-|sk-" ".clawdbot/"
      = ["home/.clawdbot/a.json", "home/.clawdbot/b.json"].flatMap fun entry =>
          match envTwoFiles.readFile entry with
          | some content =>
            fileContainsFileFindings clawdbotRule clawdbotApiKeysConfig
              "sk-ant-|sk-" entry content
          | none => [] :=
  ⟨by decide, by decide, by decide,
    C6_file_contains.2.1 envTwoFiles "home" clawdbotRule clawdbotApiKeysConfig
      "sk-ant-|sk-" ".clawdbot/" ["home/.clawdbot/a.json", "home/.clawdbot/b.json"]
      (by decide) (by decide) (by decide)⟩

/-- C7: a FileMissing rule inspects only an existing directory (a missing
path or a plain file yields no finding from that path); a readable child
file containing the required pattern yields no finding, and a readable
child file lacking it yields exactly one finding naming that file; a
directory contributes the concatenation of the per-child-file findings. -/
theorem C7_file_missing :
    (∀ (env : ScanEnv) (home : String) (tool : AiToolSecurityRule)
        (config_rule : ConfigRule) (pattern config_path : String),
      (env.pathExists (joinPath home config_path)
          && env.isDir (joinPath home config_path)) = false →
      fileMissingPathFindings env home tool config_rule pattern config_path = [])
    ∧ (∀ (tool : AiToolSecurityRule) (config_rule : ConfigRule)
        (pattern filePath content : String),
        strContains content pattern = true →
        fileMissingFileFindings tool config_rule pattern filePath content = [])
    ∧ (∀ (tool : AiToolSecurityRule) (config_rule : ConfigRule)
        (pattern filePath content : String),
        strContains content pattern = false →
        fileMissingFileFindings tool config_rule pattern filePath content
          = [configFinding tool config_rule
              ("Missing \x27" ++ pattern ++ "\x27 in: " ++ filePath)])
    ∧ (∀ (env : ScanEnv) (home : String) (tool : AiToolSecurityRule)
        (config_rule : ConfigRule) (pattern config_path : String) (entries : List String),
        env.pathExists (joinPath home config_path) = true →
        env.isDir (joinPath home config_path) = true →
        env.readDir (joinPath home config_path) = some entries →
        fileMissingPathFindings env home tool config_rule pattern config_path
          = entries.flatMap fun entry =>
              match env.readFile entry with
              | some content =>
                fileMissingFileFindings tool config_rule pattern entry content
              | none => []) := by
  refine ⟨?_, ?_, ?_, ?_⟩
  · intro env home tool config_rule pattern config_path h
    simp [fileMissingPathFindings, h]
  · intro tool config_rule pattern filePath content h
    simp [fileMissingFileFindings, h]
  · intro tool config_rule pattern filePath content h
    simp [fileMissingFileFindings, h]
  · intro env home tool config_rule pattern config_path entries h1 h2 h3
    simp [fileMissingPathFindings, h1, h2, h3]

/-- Witness for C7: the trustedProxies rule against a plain-file path
yields nothing, against a hardened content yields nothing, and against a
content lacking the token yields the one finding naming the file. -/
theorem C7_file_missing_witness :
    (envPlainFile.pathExists (joinPath "home" ".clawdbot/")
        && envPlainFile.isDir (joinPath "home" ".clawdbot/")) = false
    ∧ fileMissingPathFindings envPlainFile "home" clawdbotRule clawdbotTrustedProxiesConfig
        "trustedProxies" ".clawdbot/" = []
    ∧ strContains "gateway.trustedProxies: 10.0.0.1" "trustedProxies" = true
    ∧ fileMissingFileFindings clawdbotRule clawdbotTrustedProxiesConfig "trustedProxies"
        "home/.clawdbot/c.json" "gateway.trustedProxies: 10.0.0.1" = []
    ∧ strContains "port: 18789" "trustedProxies" = false
    ∧ fileMissingFileFindings clawdbotRule clawdbotTrustedProxiesConfig "trustedProxies"
        "home/.clawdbot/c.json" "port: 18789"
      = [configFinding clawdbotRule clawdbotTrustedProxiesConfig
          ("Missing \x27" ++ "trustedProxies" ++ "\x27 in: " ++ "home/.clawdbot/c.json")] :=
  ⟨by decide,
    C7_file_missing.1 envPlainFile "home" clawdbotRule clawdbotTrustedProxiesConfig
      "trustedProxies" ".clawdbot/" (by decide),
    by decide,
    C7_file_missing.2.1 clawdbotRule clawdbotTrustedProxiesConfig "trustedProxies"
      "home/.clawdbot/c.json" "gateway.trustedProxies: 10.0.0.1" (by decide),
    by decide,
    C7_file_missing.2.2.1 clawdbotRule clawdbotTrustedProxiesConfig "trustedProxies"
      "home/.clawdbot/c.json" "port: 18789" (by decide)⟩

end DevJanitor
